import Mathlib

/-!
Verification of the NewsCast media-synthesis pipeline (src/generator) against
its natural-language specification.  The Python source is shallowly embedded:
pure decision logic becomes Lean functions, external collaborators (Firestore,
TTS backends, ffmpeg/ffprobe, the YouTube API) become explicit oracle
parameters, and the run's externally visible behaviour becomes an explicit
event trace.  Durations are in milliseconds (naturals) for the audio
assembler and in seconds (rationals) for the ffmpeg stages, matching the
units used by the source.
-/

set_option maxHeartbeats 1000000

namespace NewsCast

/-- Python `text.strip()` is falsy exactly when every character of `text` is
whitespace; this is the skip test `if not text.strip()` used by all three
generators. -/
def isBlank (s : String) : Bool := s.data.all Char.isWhitespace

/-- Python `s.startswith(p)`, computed on the character lists. -/
def strStartsWith (s p : String) : Bool := p.data.isPrefixOf s.data

/-- One utterance of the script: speaker, text and emotion tag, exactly the
three keys read from the script JSON by the generators. -/
structure DialogueUnit where
  speaker : String
  text : String
  emotion : String
  deriving Repr, DecidableEq

/-- The four ordered subsections of one news block, the keys read by
`_extract_all_dialogues` (`introduction`, `vocabulary_hook`, `deep_dive`,
`discussion`). -/
structure Sections where
  introduction : List DialogueUnit
  vocabulary_hook : List DialogueUnit
  deep_dive : List DialogueUnit
  discussion : List DialogueUnit
  deriving Repr, DecidableEq

/-- One per-topic block of the script (`script["news"][i]`). -/
structure NewsBlock where
  sections : Sections
  deriving Repr, DecidableEq

/-- The whole script: `intro`, `news` blocks and `outro`, as produced by the
script generator and consumed by the audio generators. -/
structure Script where
  intro : List DialogueUnit
  news : List NewsBlock
  outro : List DialogueUnit
  deriving Repr, DecidableEq

/-- The units of one news block in the fixed section order used by the
source: `introduction`, `vocabulary_hook`, `deep_dive`, `discussion`. -/
def NewsBlock.allUnits (n : NewsBlock) : List DialogueUnit :=
  n.sections.introduction ++ n.sections.vocabulary_hook ++
    n.sections.deep_dive ++ n.sections.discussion

namespace AudioGenerator

/-- Embedding of `AudioGenerator._extract_all_dialogues`
(src/generator/audio_generator.py lines 126-147): the intro is skipped (the
pre-rendered `intro_fixed.mp3` is spliced in later), then every news block
contributes its four sections in order, then the outro. -/
def extract_all_dialogues (script : Script) : List DialogueUnit :=
  let dialogues : List DialogueUnit := []
  let dialogues := script.news.foldl (fun acc n => acc ++ n.allUnits) dialogues
  dialogues ++ script.outro

end AudioGenerator

namespace GeminiAudioGenerator

/-- Embedding of `GeminiAudioGenerator._extract_all_dialogues`
(src/generator/audio_generator.py lines 498-514); the body is the same as the
Edge variant. -/
def extract_all_dialogues (script : Script) : List DialogueUnit :=
  let dialogues : List DialogueUnit := []
  let dialogues := script.news.foldl (fun acc n => acc ++ n.allUnits) dialogues
  dialogues ++ script.outro

end GeminiAudioGenerator

/-- The synthesis order stated by the spec (document order with the intro
excluded).  This definition follows the spec's words and is only used to be
compared with the source-derived extraction functions. -/
def specDocumentOrder (script : Script) : List DialogueUnit :=
  (script.news.map NewsBlock.allUnits).flatten ++ script.outro

/-- The three TTS backends selectable in `get_audio_generator`. -/
inductive TtsEngine where
  | gemini
  | googleCloud
  | edge
  deriving Repr, DecidableEq

/-- Embedding of `get_audio_generator` (src/generator/audio_generator.py
lines 517-535): `"gemini"` and `"google_cloud"` select their backends, every
other string falls through to the Edge TTS backend. -/
def get_audio_generator (engine : String) : TtsEngine :=
  if engine = "gemini" then TtsEngine.gemini
  else if engine = "google_cloud" then TtsEngine.googleCloud
  else TtsEngine.edge

/-- An atom of assembled audio: a synthesized segment or an inserted silence,
carrying its duration in milliseconds. -/
inductive Atom where
  | seg (dur : Nat)
  | silence (dur : Nat)
  deriving Repr, DecidableEq

/-- Duration in milliseconds of one atom. -/
def Atom.dur : Atom → Nat
  | Atom.seg d => d
  | Atom.silence d => d

/-- Total duration in milliseconds of an assembled audio artifact. -/
def audioDuration (a : List Atom) : Nat := (a.map Atom.dur).sum

namespace AudioGenerator

/-- Embedding of the assembly loop of `AudioGenerator._generate_all_audio`
(src/generator/audio_generator.py lines 72-111): units with
whitespace-only text are skipped; for every synthesized unit the code appends
the segment and then a 400 ms silence (also after the last segment), and the
result is the concatenation of the collected pieces (empty when nothing was
synthesized).  `tts` gives the duration of the segment Edge TTS returns for a
unit. -/
def generate_all_audio (tts : DialogueUnit → Nat) : List DialogueUnit → List Atom
  | [] => []
  | d :: rest =>
    if isBlank d.text then generate_all_audio tts rest
    else Atom.seg (tts d) :: Atom.silence 400 :: generate_all_audio tts rest

/-- Embedding of `AudioGenerator.generate_audio` (src/generator/audio_generator.py
lines 56-70): extract the dialogues, then assemble. -/
def generate_audio (tts : DialogueUnit → Nat) (script : Script) : List Atom :=
  generate_all_audio tts (extract_all_dialogues script)

end AudioGenerator

namespace GeminiAudioGenerator

/-- One audio payload collected from the Gemini backend: the raw bytes and
the declared MIME type (`audio_segments` entries in
src/generator/audio_generator.py lines 393-398). -/
structure Payload where
  data : List Nat
  mime_type : String
  deriving Repr, DecidableEq

/-- Embedding of the `mime_to_format` dictionary inside
`GeminiAudioGenerator.generate_audio` (src/generator/audio_generator.py
lines 440-449). -/
def mime_to_format : List (String × String) :=
  [("audio/wav", "wav"), ("audio/x-wav", "wav"),
   ("audio/mpeg", "mp3"), ("audio/mp3", "mp3"),
   ("audio/ogg", "ogg"), ("audio/flac", "flac"),
   ("audio/L16", "raw"), ("audio/pcm", "raw")]

/-- Embedding of `get_format_from_mime` (src/generator/audio_generator.py
lines 439-450): dictionary lookup with default `"wav"`. -/
def get_format_from_mime (mime : String) : String :=
  (mime_to_format.lookup mime).getD "wav"

/-- How one payload is decoded. -/
inductive DecodeStrategy where
  | rawPCM (sample_width frame_rate channels : Nat)
  | container (fmt : String)
  deriving Repr, DecidableEq

/-- Embedding of the decode branch of `GeminiAudioGenerator.generate_audio`
(src/generator/audio_generator.py lines 462-477): a payload whose computed
format is `"raw"` or whose MIME type starts with `"audio/L16"` is decoded as
headerless 16-bit PCM at 24 kHz mono; otherwise it is decoded as the
container named by `get_format_from_mime`. -/
def decode_strategy_for (mime : String) : DecodeStrategy :=
  let audio_format := get_format_from_mime mime
  if audio_format = "raw" || strStartsWith mime "audio/L16" then
    DecodeStrategy.rawPCM 2 24000 1
  else
    DecodeStrategy.container audio_format

/-- One step of the Gemini assembly loop (src/generator/audio_generator.py
lines 452-486): payloads that are empty or shorter than 10 bytes are skipped
(a warning is printed and the loop continues); the first decoded segment
starts the result, every later one is preceded by a 400 ms silence.  `dur`
gives the decoded duration of a payload in milliseconds. -/
def assemble_step (dur : Payload → Nat) (combined : Option (List Atom))
    (p : Payload) : Option (List Atom) :=
  if p.data.length < 10 then combined
  else
    match combined with
    | none => some [Atom.seg (dur p)]
    | some c => some (c ++ [Atom.silence 400, Atom.seg (dur p)])

/-- The Gemini assembly loop over all collected payloads: `combined` starts
as `None` and the final `None` (everything skipped) becomes the empty
result. -/
def assemble (dur : Payload → Nat) (payloads : List Payload) : List Atom :=
  (payloads.foldl (assemble_step dur) none).getD []

end GeminiAudioGenerator

/-! ## Synthesis retry loop (GeminiAudioGenerator.generate_audio, lines 345-428) -/

namespace GeminiAudioGenerator

/-- What the backend call returns for one attempt: success, a rate-limit
client error (HTTP 429), another client error (re-raised immediately) or a
server error (retried with the same backoff as 429). -/
inductive Reply where
  | success
  | rateLimited
  | clientError
  | serverError
  deriving Repr, DecidableEq

/-- Outcome of synthesizing one unit, carrying the total backoff time slept
(seconds; the fixed 7 s inter-request spacing is not backoff and is not
counted here). -/
inductive UnitOutcome where
  | success (backoff : ℚ)
  | raised (backoff : ℚ)
  deriving Repr, DecidableEq

/-- Add a backoff sleep in front of an outcome. -/
def addBackoff (w : ℚ) : UnitOutcome → UnitOutcome
  | UnitOutcome.success s => UnitOutcome.success (w + s)
  | UnitOutcome.raised s => UnitOutcome.raised (w + s)

/-- `max_retries` of `GeminiAudioGenerator.generate_audio` (line 349). -/
def max_retries : Nat := 5

/-- `base_wait` of `GeminiAudioGenerator.generate_audio` (line 350), in
seconds. -/
def base_wait : ℚ := 3

/-- Embedding of the per-unit retry loop
(src/generator/audio_generator.py lines 365-428).  `replies retry` is what
attempt number `retry` returns; `fuel` is the number of loop iterations left
(`max_retries - retry`), so `fuel = 0` inside the iteration means this was
the last allowed attempt (`retry == max_retries - 1`), where the code sleeps
the backoff and then re-raises.  On a 429 or a server error the code sleeps
`base_wait * 2 ^ retry` and retries; on another client error it re-raises at
once; on success it breaks out of the loop. -/
def retryLoop (replies : Nat → Reply) : Nat → Nat → UnitOutcome
  | 0, _ => UnitOutcome.success 0
  | fuel + 1, retry =>
    match replies retry with
    | Reply.success => UnitOutcome.success 0
    | Reply.clientError => UnitOutcome.raised 0
    | Reply.rateLimited =>
      let w := base_wait * 2 ^ retry
      if fuel = 0 then UnitOutcome.raised w
      else addBackoff w (retryLoop replies fuel (retry + 1))
    | Reply.serverError =>
      let w := base_wait * 2 ^ retry
      if fuel = 0 then UnitOutcome.raised w
      else addBackoff w (retryLoop replies fuel (retry + 1))

/-- Synthesis of one dialogue unit: the retry loop entered with
`retry = 0` and `max_retries` iterations available. -/
def synthesize_unit (replies : Nat → Reply) : UnitOutcome :=
  retryLoop replies max_retries 0

/-- A backend behaviour that returns a rate-limit signal on the first `k`
attempts and then succeeds. -/
def rateLimitK (k : Nat) : Nat → Reply :=
  fun retry => if retry < k then Reply.rateLimited else Reply.success

/-- Outcome of the whole per-unit loop of `generate_audio`: either all units
were synthesized, or an exception escaped while handling unit number
`unitsAttempted` (1-based) and the remaining units were never attempted.
`backoff` is the total backoff time slept. -/
inductive RunOutcome where
  | completed (unitsSynthesized : Nat) (backoff : ℚ)
  | raisedAt (unitsAttempted : Nat) (backoff : ℚ)
  deriving Repr, DecidableEq

/-- The units loop of `GeminiAudioGenerator.generate_audio` (lines 352-428):
units are processed in order; the first escaping exception aborts the loop
(and with it the whole run). -/
def run_units : List (Nat → Reply) → RunOutcome
  | [] => RunOutcome.completed 0 0
  | u :: rest =>
    match synthesize_unit u with
    | UnitOutcome.raised w => RunOutcome.raisedAt 1 w
    | UnitOutcome.success w =>
      match run_units rest with
      | RunOutcome.completed n s => RunOutcome.completed (n + 1) (w + s)
      | RunOutcome.raisedAt n s => RunOutcome.raisedAt (n + 1) (w + s)

end GeminiAudioGenerator

/-! ## External media-tool stages (audio_mixer.py, video_generator.py) -/

/-- Result of one external tool invocation (`subprocess.run`): exit code and
captured stderr text. -/
structure ToolResult where
  exitCode : Int
  stderr : String
  deriving Repr, DecidableEq

/-- The error message raised on a failed ffmpeg invocation
(`RuntimeError` with the tool's stderr attached). -/
def ffmpegError (stderr : String) : String := "FFmpeg error: " ++ stderr

/-- The error message raised on a failed ffprobe invocation. -/
def ffprobeError (stderr : String) : String := "FFprobe error: " ++ stderr

namespace AudioMixer

/-- Embedding of `AudioMixer.convert_to_mp3` (src/generator/audio_mixer.py
lines 132-162): non-zero exit raises with stderr, otherwise the output path
is returned. -/
def convert_to_mp3 (r : ToolResult) (output_path : String) :
    Except String String :=
  if r.exitCode ≠ 0 then Except.error (ffmpegError r.stderr)
  else Except.ok output_path

/-- Embedding of `AudioMixer._concat_audio_files` (src/generator/audio_mixer.py
lines 83-130): non-zero exit raises with stderr. -/
def concat_audio_files (r : ToolResult) (output_path : String) :
    Except String String :=
  if r.exitCode ≠ 0 then Except.error (ffmpegError r.stderr)
  else Except.ok output_path

/-- Embedding of `AudioMixer.add_background_music`
(src/generator/audio_mixer.py lines 164-209): non-zero exit raises with
stderr. -/
def add_background_music (r : ToolResult) (output_path : String) :
    Except String String :=
  if r.exitCode ≠ 0 then Except.error (ffmpegError r.stderr)
  else Except.ok output_path

/-- Embedding of `AudioMixer.normalize_audio` (src/generator/audio_mixer.py
lines 211-243): non-zero exit raises with stderr. -/
def normalize_audio (r : ToolResult) (output_path : String) :
    Except String String :=
  if r.exitCode ≠ 0 then Except.error (ffmpegError r.stderr)
  else Except.ok output_path

/-- Embedding of `AudioMixer.get_audio_duration` (src/generator/audio_mixer.py
lines 245-273): non-zero ffprobe exit raises with stderr, otherwise the
parsed duration is returned. -/
def get_audio_duration (r : ToolResult) (parsed : ℚ) : Except String ℚ :=
  if r.exitCode ≠ 0 then Except.error (ffprobeError r.stderr)
  else Except.ok parsed

/-- Embedding of `AudioMixer.mix_audio` (src/generator/audio_mixer.py lines
52-81): when the intro asset exists (and `include_intro` is set) the concat
tool is used and its exit code is checked; otherwise the body is copied
through by an ffmpeg invocation whose exit code is NOT inspected - the
output path is returned no matter what the copy tool reported. -/
def mix_audio (include_intro intro_exists : Bool) (r : ToolResult)
    (output_path : String) : Except String String :=
  if include_intro && intro_exists then concat_audio_files r output_path
  else Except.ok output_path

end AudioMixer

namespace VideoGenerator

/-- `VideoGenerator.INTRO_DURATION` (src/generator/video_generator.py line
33), in seconds. -/
def INTRO_DURATION : ℚ := 35

/-- The ffmpeg invocation built by `VideoGenerator.generate_video`:
whether the dual-image switch filter is used, the `-t` output limit, the
overlay time gate (`enable=lt(t,gate)`) when present, and whether
`-shortest` is passed. -/
structure MuxPlan where
  usesSwitch : Bool
  tLimit : ℚ
  overlayGate : Option ℚ
  usesShortest : Bool
  deriving Repr, DecidableEq

/-- Embedding of the mode selection and argument construction of
`VideoGenerator.generate_video` (src/generator/video_generator.py lines
75-147) and `_generate_video_with_background_switch` (lines 149-222):
`duration` is the probed audio duration; when both the intro and the main
background image exist, the switch mode is used with
`intro_duration = min(INTRO_DURATION, duration)` as overlay gate and `-t
duration`; otherwise the single-background mode passes `-shortest` and `-t
duration`. -/
def generate_video (intro_bg_exists main_bg_exists : Bool) (duration : ℚ) :
    MuxPlan :=
  if intro_bg_exists && main_bg_exists then
    { usesSwitch := true, tLimit := duration,
      overlayGate := some (min INTRO_DURATION duration), usesShortest := false }
  else
    { usesSwitch := false, tLimit := duration,
      overlayGate := none, usesShortest := true }

/-- Exit-code check shared by both mux invocations
(src/generator/video_generator.py lines 140-141 and 218-219): non-zero exit
raises with stderr. -/
def run_mux (r : ToolResult) (output_path : String) : Except String String :=
  if r.exitCode ≠ 0 then Except.error (ffmpegError r.stderr)
  else Except.ok output_path

/-- Embedding of `VideoGenerator._create_solid_background`
(src/generator/video_generator.py lines 314-337): non-zero exit raises with
stderr. -/
def create_solid_background (r : ToolResult) (output_path : String) :
    Except String String :=
  if r.exitCode ≠ 0 then Except.error (ffmpegError r.stderr)
  else Except.ok output_path

/-- Embedding of `VideoGenerator._get_audio_duration`
(src/generator/video_generator.py lines 339-359): non-zero ffprobe exit
raises with stderr. -/
def get_audio_duration (r : ToolResult) (parsed : ℚ) : Except String ℚ :=
  if r.exitCode ≠ 0 then Except.error (ffprobeError r.stderr)
  else Except.ok parsed

/-- Duration of the video the external mux tool produces for a plan.
Modelled from the media-tool interface the spec describes: the still-image
inputs are looped (unbounded), `-t` stops the output at `tLimit`, and
`-shortest` additionally stops it at the end of the shortest input, i.e. the
audio; the output is truncated, never extended beyond those limits. -/
def muxOutputDuration (plan : MuxPlan) (audioDur : ℚ) : ℚ :=
  if plan.usesShortest then min audioDur plan.tLimit else plan.tLimit

/-- How long the intro image is visible: the overlay is enabled while
`t < gate`, inside the produced video of length `muxOutputDuration`. -/
def introVisibleDuration (plan : MuxPlan) (audioDur : ℚ) : ℚ :=
  match plan.overlayGate with
  | none => 0
  | some g => min g (muxOutputDuration plan audioDur)

end VideoGenerator

/-! ## Run orchestration (main.py) -/

/-- The externally visible operations a run can perform, in the order they
are invoked. -/
inductive Ev where
  | scriptGen
  | audioGen
  | mixAudio
  | videoGen
  | thumbnailGen
  | uploadAttempt
  | uploadDone
  | statusUpdate (ids : List String) (status : String)
  deriving Repr, DecidableEq

/-- The command-line flags of `main` (src/generator/main.py lines 257-274). -/
structure RunArgs where
  dryRun : Bool
  useFallbackTts : Bool
  skipStatusUpdate : Bool
  deriving Repr, DecidableEq

/-- Embedding of `get_selected_news` (src/generator/main.py lines 57-79):
the Firestore query filters on `status == "selected"` and is capped by
`.limit(limit)`; `selected` is the store's list of selected item ids in query
order. -/
def get_selected_news (selected : List String) (limit : Nat) : List String :=
  selected.take limit

/-- Embedding of `generate_and_upload_video` (src/generator/main.py lines
101-252) as an event trace: script generation, audio generation, audio
mixing, video generation and thumbnail rendering happen unconditionally;
then either the upload is skipped (dry run), succeeds, or raises.  The
second component is `true` when the function returned normally and `false`
when the upload raised. -/
def generate_and_upload_video (dryRun uploadOk : Bool) : List Ev × Bool :=
  let base := [Ev.scriptGen, Ev.audioGen, Ev.mixAudio, Ev.videoGen,
               Ev.thumbnailGen]
  if dryRun then (base, true)
  else if uploadOk then (base ++ [Ev.uploadAttempt, Ev.uploadDone], true)
  else (base ++ [Ev.uploadAttempt], false)

/-- Embedding of `main` (src/generator/main.py lines 255-326) after Firebase
initialisation: fetch the selected items (limit 3); zero items or fewer than
3 items end the run with exit code 0 before any pipeline stage; otherwise the
pipeline runs, and only when it returned normally and neither
`--skip-status-update` nor `--dry-run` is set is the batched status update to
`"archived"` issued; an exception anywhere is caught at the top and turns
into exit code 1. -/
def main_run (selected : List String) (args : RunArgs) (uploadOk : Bool) :
    Nat × List Ev :=
  let news_items := get_selected_news selected 3
  if news_items.length = 0 then (0, [])
  else if news_items.length < 3 then (0, [])
  else
    let r := generate_and_upload_video args.dryRun uploadOk
    if r.2 then
      if ¬args.skipStatusUpdate && ¬args.dryRun then
        (0, r.1 ++ [Ev.statusUpdate news_items "archived"])
      else (0, r.1)
    else (1, r.1)

/-! ## YouTube uploader (youtube_uploader.py) -/

namespace YouTubeUploader

/-- Outcome of the thumbnail-set API call: success, an `HttpError`, or any
other exception. -/
inductive ThumbOutcome where
  | ok
  | httpError (e : String)
  | otherError (e : String)
  deriving Repr, DecidableEq

/-- Embedding of `YouTubeUploader.set_thumbnail`
(src/generator/youtube_uploader.py lines 175-197): an `HttpError` is caught,
a warning is printed and `False` is returned; success returns `True`; any
other exception propagates. -/
def set_thumbnail : ThumbOutcome → Except String Bool
  | ThumbOutcome.ok => Except.ok true
  | ThumbOutcome.httpError _ => Except.ok false
  | ThumbOutcome.otherError e => Except.error e

/-- The value `upload_video` returns on success. -/
structure UploadResult where
  video_id : String
  url : String
  title : String
  deriving Repr, DecidableEq

/-- The canonical watch URL built from the returned video id
(src/generator/youtube_uploader.py line 156). -/
def video_url (vid : String) : String :=
  "https://www.youtube.com/watch?v=" ++ vid

/-- Embedding of `YouTubeUploader.upload_video`
(src/generator/youtube_uploader.py lines 92-173): missing video file raises;
a failed insert call re-raises; on success, if a thumbnail path exists
`set_thumbnail` is called and its boolean result is ignored, and the result
record with the video id and URL is returned.  The second component records
the thumbnail call's return value when the call happened. -/
def upload_video (video_exists : Bool) (insertOutcome : Except String String)
    (thumb_exists : Bool) (thumbOutcome : ThumbOutcome) (title : String) :
    Except String (UploadResult × Option Bool) :=
  if video_exists = false then Except.error "video file not found"
  else
    match insertOutcome with
    | Except.error e => Except.error e
    | Except.ok vid =>
      if thumb_exists then
        match set_thumbnail thumbOutcome with
        | Except.error e => Except.error e
        | Except.ok b =>
          Except.ok ({ video_id := vid, url := video_url vid, title := title },
                     some b)
      else
        Except.ok ({ video_id := vid, url := video_url vid, title := title },
                   none)

end YouTubeUploader

/-- The script used by the audio_generator module's own `__main__` smoke
test, restricted to its outro (one non-empty unit); used as the concrete
failing input for the trailing-silence bug. -/
def outroOnlyScript : Script :=
  { intro := [],
    news := [],
    outro := [{ speaker := "Steve", text := "Thank you for listening.",
                emotion := "neutral" }] }

/-! ## Helper lemmas -/

/-- Folding list-append over a list is the flattened map: the shape of the
`dialogues.extend(...)` accumulation in `_extract_all_dialogues`. -/
theorem foldl_append_flatten {α β : Type} (f : β → List α) :
    ∀ (l : List β) (init : List α),
      l.foldl (fun acc n => acc ++ f n) init = init ++ (l.map f).flatten := by
  intro l
  induction l with
  | nil => intro init; simp
  | cons h t ih => intro init; simp [ih]

namespace GeminiAudioGenerator

/-- The retry loop on a backend that rate-limits the first `k` attempts and
then succeeds: when the success attempt is inside the remaining fuel, the
loop succeeds and the backoff slept is the sum of `base_wait * 2 ^ r` over
the failed attempts. -/
theorem retryLoop_rateLimit_success (k : Nat) :
    ∀ (fuel retry : Nat), k < retry + fuel →
      retryLoop (rateLimitK k) fuel retry =
        UnitOutcome.success (∑ r in Finset.Ico retry k, base_wait * 2 ^ r) := by
  intro fuel
  induction fuel with
  | zero =>
    intro retry h
    rw [Finset.Ico_eq_empty (by omega), Finset.sum_empty]
    rfl
  | succ fuel ih =>
    intro retry h
    by_cases hk : retry < k
    · have hfuel : fuel ≠ 0 := by omega
      simp only [retryLoop, rateLimitK, hk, if_true, hfuel, if_false]
      rw [ih (retry + 1) (by omega)]
      simp only [addBackoff]
      rw [Finset.sum_eq_sum_Ico_succ_bot hk]
    · simp only [retryLoop, rateLimitK, hk, if_false]
      rw [Finset.Ico_eq_empty (by omega), Finset.sum_empty]

/-- The retry loop on a backend that rate-limits at least as many attempts
as there is fuel: the loop sleeps the backoff of every attempt and then
re-raises. -/
theorem retryLoop_rateLimit_raised (k : Nat) :
    ∀ (fuel retry : Nat), 0 < fuel → retry + fuel ≤ k →
      retryLoop (rateLimitK k) fuel retry =
        UnitOutcome.raised
          (∑ r in Finset.Ico retry (retry + fuel), base_wait * 2 ^ r) := by
  intro fuel
  induction fuel with
  | zero => intro retry h; omega
  | succ fuel ih =>
    intro retry _ hle
    have hk : retry < k := by omega
    by_cases hfuel : fuel = 0
    · subst hfuel
      simp only [retryLoop, rateLimitK, hk, if_true]
      rw [Finset.sum_eq_sum_Ico_succ_bot (by omega : retry < retry + 1)]
      rw [Finset.Ico_eq_empty (by omega), Finset.sum_empty, add_zero]
    · simp only [retryLoop, rateLimitK, hk, if_true, hfuel, if_false]
      rw [ih (retry + 1) (by omega) (by omega)]
      simp only [addBackoff]
      have harr : retry + (fuel + 1) = (retry + 1) + fuel := by omega
      rw [harr, Finset.sum_eq_sum_Ico_succ_bot (by omega : retry < retry + 1 + fuel)]

end GeminiAudioGenerator

/-! ## Claims -/

/-- C1: the claim says the assembled audio has a 400 ms silence only BETWEEN
consecutive segments (none after the last), so one 1000 ms segment should
give a 1000 ms artifact.  The Edge TTS path (`AudioGenerator`, also cited by
the claim) appends a 400 ms silence after every segment including the last:
on the module's own one-unit outro script it produces segment-then-silence
with total duration 1400 ms.  The Gemini assembly loop does satisfy the
claim (last conjunct). -/
theorem C1_edge_trailing_silence :
    AudioGenerator.generate_audio (fun _ => 1000) outroOnlyScript =
      [Atom.seg 1000, Atom.silence 400] ∧
    audioDuration (AudioGenerator.generate_audio (fun _ => 1000) outroOnlyScript)
      = 1400 ∧
    audioDuration (GeminiAudioGenerator.assemble (fun _ => 1000)
      [{ data := List.replicate 20 0, mime_type := "audio/wav" }]) = 1000 :=
  ⟨by decide, by decide, by decide⟩

/-- C7: the units handed to the synthesis engine are exactly the news blocks
in document order, each contributing its sections in the fixed order
introduction, vocabulary_hook, deep_dive, discussion, followed by the outro;
the Gemini backend extracts the same list as the Edge backend; and the
result never depends on the intro section. -/
theorem C7_synthesis_order (s : Script) :
    AudioGenerator.extract_all_dialogues s = specDocumentOrder s ∧
    GeminiAudioGenerator.extract_all_dialogues s =
      AudioGenerator.extract_all_dialogues s ∧
    ∀ intro2 : List DialogueUnit,
      AudioGenerator.extract_all_dialogues { s with intro := intro2 } =
        AudioGenerator.extract_all_dialogues s := by
  refine ⟨?_, rfl, fun _ => rfl⟩
  show List.foldl (fun acc n => acc ++ n.allUnits) [] s.news ++ s.outro =
    (s.news.map NewsBlock.allUnits).flatten ++ s.outro
  rw [foldl_append_flatten]
  simp

/-- C9: `get_audio_generator` returns the Gemini backend for `"gemini"`, the
Google Cloud backend for `"google_cloud"`, and the Edge TTS backend for every
other engine string, without raising. -/
theorem C9_engine_dispatch (s : String) (h1 : s ≠ "gemini")
    (h2 : s ≠ "google_cloud") :
    get_audio_generator "gemini" = TtsEngine.gemini ∧
    get_audio_generator "google_cloud" = TtsEngine.googleCloud ∧
    get_audio_generator s = TtsEngine.edge := by
  refine ⟨by decide, by decide, ?_⟩
  simp [get_audio_generator, h1, h2]

/-- C9 witness: the empty engine string is neither recognized name and falls
through to the Edge backend. -/
theorem C9_engine_dispatch_witness :
    get_audio_generator "" = TtsEngine.edge :=
  (C9_engine_dispatch "" (by decide) (by decide)).2.2

/-- C10: a thumbnail failure with an API error never invalidates a completed
upload: `set_thumbnail` catches the `HttpError` and returns `False`, and
`upload_video` still returns the successful result with the video id and
canonical URL. -/
theorem C10_thumbnail_failure_not_fatal (vid title e : String) :
    YouTubeUploader.set_thumbnail (YouTubeUploader.ThumbOutcome.httpError e) =
      Except.ok false ∧
    YouTubeUploader.upload_video true (Except.ok vid) true
        (YouTubeUploader.ThumbOutcome.httpError e) title =
      Except.ok ({ video_id := vid, url := YouTubeUploader.video_url vid,
                   title := title }, some false) :=
  ⟨rfl, rfl⟩

/-- C3: when the rate-limited backend returns a 429 exactly `k` times and
then succeeds, with `k` below the retry bound, the unit is synthesized and
the total backoff slept is the sum of the first `k` terms of
`base_wait * 2 ^ attempt`; when `k` reaches the bound, the exception
propagates out of the units loop after the first unit and no later unit is
attempted (the outcome is `raisedAt 1`, independent of the remaining
units). -/
theorem C3_rate_limit_retry (k : Nat) :
    (k < GeminiAudioGenerator.max_retries →
      GeminiAudioGenerator.synthesize_unit (GeminiAudioGenerator.rateLimitK k) =
        GeminiAudioGenerator.UnitOutcome.success
          (∑ r in Finset.range k, GeminiAudioGenerator.base_wait * 2 ^ r)) ∧
    (GeminiAudioGenerator.max_retries ≤ k →
      ∀ rest : List (Nat → GeminiAudioGenerator.Reply),
        GeminiAudioGenerator.run_units (GeminiAudioGenerator.rateLimitK k :: rest) =
          GeminiAudioGenerator.RunOutcome.raisedAt 1
            (∑ r in Finset.range GeminiAudioGenerator.max_retries,
              GeminiAudioGenerator.base_wait * 2 ^ r)) := by
  constructor
  · intro hk
    rw [Finset.range_eq_Ico]
    exact GeminiAudioGenerator.retryLoop_rateLimit_success k
      GeminiAudioGenerator.max_retries 0 (by omega)
  · intro hk rest
    have hraise :
        GeminiAudioGenerator.synthesize_unit (GeminiAudioGenerator.rateLimitK k) =
          GeminiAudioGenerator.UnitOutcome.raised
            (∑ r in Finset.range GeminiAudioGenerator.max_retries,
              GeminiAudioGenerator.base_wait * 2 ^ r) := by
      rw [Finset.range_eq_Ico]
      have := GeminiAudioGenerator.retryLoop_rateLimit_raised k
        GeminiAudioGenerator.max_retries 0 (by decide) (by omega)
      simpa using this
    simp [GeminiAudioGenerator.run_units, hraise]

/-- C3 witness: two rate-limit replies then success gives a synthesized unit
with backoff `3 + 6`; seven rate-limit replies exhaust the five attempts and
abort the run after the first unit, the second unit never being attempted. -/
theorem C3_rate_limit_retry_witness :
    GeminiAudioGenerator.synthesize_unit (GeminiAudioGenerator.rateLimitK 2) =
      GeminiAudioGenerator.UnitOutcome.success
        (∑ r in Finset.range 2, GeminiAudioGenerator.base_wait * 2 ^ r) ∧
    GeminiAudioGenerator.run_units
        [GeminiAudioGenerator.rateLimitK 7, GeminiAudioGenerator.rateLimitK 0] =
      GeminiAudioGenerator.RunOutcome.raisedAt 1
        (∑ r in Finset.range GeminiAudioGenerator.max_retries,
          GeminiAudioGenerator.base_wait * 2 ^ r) :=
  ⟨(C3_rate_limit_retry 2).1 (by decide),
   (C3_rate_limit_retry 7).2 (by decide) [GeminiAudioGenerator.rateLimitK 0]⟩

/-- C4 counterexample: the claim says every external tool invocation,
including the pass-through copy used when the intro asset is absent, raises
on a non-zero exit.  The pass-through branch of `mix_audio` never inspects
the copy tool's exit code: with the intro asset absent and the tool exiting
1 with diagnostic output, the stage still returns the output path. -/
theorem C4_pass_through_ignores_exit :
    AudioMixer.mix_audio true false { exitCode := 1, stderr := "boom" }
        "out.mp3" = Except.ok "out.mp3" ∧
    ({ exitCode := 1, stderr := "boom" } : ToolResult).exitCode ≠ 0 :=
  ⟨rfl, by decide⟩

/-- C4 (amended): every checked media-tool invocation - convert, concat,
background-mix, normalize, duration probe, both video-mux variants and the
solid-background generator - raises an error carrying the tool's stderr on a
non-zero exit; the single exception is the pass-through copy in `mix_audio`
when the intro asset is absent, which ignores the tool's exit status and
returns the output path unconditionally. -/
theorem C4_tool_failures_raise (r : ToolResult) (h : r.exitCode ≠ 0)
    (out : String) (q : ℚ) (ii ie : Bool) :
    AudioMixer.convert_to_mp3 r out = Except.error (ffmpegError r.stderr) ∧
    AudioMixer.concat_audio_files r out = Except.error (ffmpegError r.stderr) ∧
    AudioMixer.add_background_music r out = Except.error (ffmpegError r.stderr) ∧
    AudioMixer.normalize_audio r out = Except.error (ffmpegError r.stderr) ∧
    AudioMixer.get_audio_duration r q = Except.error (ffprobeError r.stderr) ∧
    VideoGenerator.run_mux r out = Except.error (ffmpegError r.stderr) ∧
    VideoGenerator.create_solid_background r out =
      Except.error (ffmpegError r.stderr) ∧
    VideoGenerator.get_audio_duration r q =
      Except.error (ffprobeError r.stderr) ∧
    ((ii && ie) = true →
      AudioMixer.mix_audio ii ie r out = Except.error (ffmpegError r.stderr)) ∧
    ((ii && ie) = false →
      AudioMixer.mix_audio ii ie r out = Except.ok out) := by
  refine ⟨?_, ?_, ?_, ?_, ?_, ?_, ?_, ?_, ?_, ?_⟩
  · simp [AudioMixer.convert_to_mp3, h]
  · simp [AudioMixer.concat_audio_files, h]
  · simp [AudioMixer.add_background_music, h]
  · simp [AudioMixer.normalize_audio, h]
  · simp [AudioMixer.get_audio_duration, h]
  · simp [VideoGenerator.run_mux, h]
  · simp [VideoGenerator.create_solid_background, h]
  · simp [VideoGenerator.get_audio_duration, h]
  · intro hc
    simp [AudioMixer.mix_audio, AudioMixer.concat_audio_files, hc, h]
  · intro hc
    simp [AudioMixer.mix_audio, hc]

/-- C4 witness: a failing tool (exit 2) makes the convert stage raise with
the diagnostic attached, and the intro-present concat path raise as well. -/
theorem C4_tool_failures_raise_witness :
    AudioMixer.convert_to_mp3 { exitCode := 2, stderr := "bad input" } "o.mp3" =
      Except.error (ffmpegError "bad input") ∧
    AudioMixer.mix_audio true true { exitCode := 2, stderr := "bad input" }
        "o.mp3" = Except.error (ffmpegError "bad input") := by
  have h := C4_tool_failures_raise { exitCode := 2, stderr := "bad input" }
    (by decide) "o.mp3" 0 true true
  exact ⟨h.1, (h.2.2.2.2.2.2.2.2.1) (by decide)⟩

/-- C5: the mux invocation built by `generate_video` always limits the
output to the probed audio duration `d` (the produced video's duration is
`d` in both modes); in dual-image switch mode the intro image is overlaid
for exactly `min INTRO_DURATION d`, and in single-background mode there is
no overlay at all. -/
theorem C5_video_duration (introBg mainBg : Bool) (d : ℚ) :
    VideoGenerator.muxOutputDuration
      (VideoGenerator.generate_video introBg mainBg d) d = d ∧
    ((introBg && mainBg) = true →
      (VideoGenerator.generate_video introBg mainBg d).overlayGate =
        some (min VideoGenerator.INTRO_DURATION d) ∧
      VideoGenerator.introVisibleDuration
          (VideoGenerator.generate_video introBg mainBg d) d =
        min VideoGenerator.INTRO_DURATION d) ∧
    ((introBg && mainBg) = false →
      (VideoGenerator.generate_video introBg mainBg d).overlayGate = none ∧
      VideoGenerator.introVisibleDuration
          (VideoGenerator.generate_video introBg mainBg d) d = 0) := by
  by_cases hc : (introBg && mainBg) = true
  · refine ⟨?_, fun _ => ⟨?_, ?_⟩, fun hcf => by simp [hcf] at hc⟩
    · simp [VideoGenerator.generate_video, VideoGenerator.muxOutputDuration, hc]
    · simp [VideoGenerator.generate_video, hc]
    · simp [VideoGenerator.generate_video, hc,
        VideoGenerator.introVisibleDuration, VideoGenerator.muxOutputDuration,
        min_assoc, min_self]
  · refine ⟨?_, fun hct => absurd hct hc, fun _ => ⟨?_, ?_⟩⟩
    · simp [VideoGenerator.generate_video, VideoGenerator.muxOutputDuration, hc]
    · simp [VideoGenerator.generate_video, hc]
    · simp [VideoGenerator.generate_video, hc,
        VideoGenerator.introVisibleDuration]

/-- C5 witness: with both images present and a 100 s audio, the plan's
overlay gate is `min 35 100` and the intro is visible that long; with one
image missing there is no overlay. -/
theorem C5_video_duration_witness :
    VideoGenerator.muxOutputDuration
      (VideoGenerator.generate_video true true 100) 100 = 100 ∧
    (VideoGenerator.generate_video true true 100).overlayGate =
      some (min VideoGenerator.INTRO_DURATION 100) ∧
    (VideoGenerator.generate_video true false 100).overlayGate = none :=
  ⟨(C5_video_duration true true 100).1,
   ((C5_video_duration true true 100).2.1 (by decide)).1,
   ((C5_video_duration true false 100).2.2 (by decide)).1⟩

/-- C6: a run whose selected-items query returns fewer than 3 items exits
with status code 0 and performs no pipeline operation at all (no script
generation, synthesis or publication), and the query result is always capped
at 3 items. -/
theorem C6_insufficient_items (selected : List String) (args : RunArgs)
    (uploadOk : Bool) (h : (get_selected_news selected 3).length < 3) :
    (get_selected_news selected 3).length ≤ 3 ∧
    main_run selected args uploadOk = (0, []) := by
  constructor
  · have := List.length_take 3 selected
    simp only [get_selected_news] at *
    omega
  · by_cases h0 : (get_selected_news selected 3).length = 0
    · simp [main_run, h0]
    · simp [main_run, h0, h]

/-- C6 witness: a store holding a single selected item yields a capped query
of one item and a clean exit with an empty trace. -/
theorem C6_insufficient_items_witness :
    (get_selected_news ["a"] 3).length ≤ 3 ∧
    main_run ["a"] { dryRun := false, useFallbackTts := false,
                     skipStatusUpdate := false } true = (0, []) :=
  C6_insufficient_items ["a"] _ true (by decide)

/-- C2: the batched status update to "archived" happens only in a run where
the upload returned successfully and the dry-run flag is off, and only after
the publish event; consequently, if the upload raises or the run is a dry
run, the status update is never invoked and the consumed items keep their
"selected" status in the store. -/
theorem C2_status_update_after_publish (selected : List String)
    (args : RunArgs) (uploadOk : Bool) (ids : List String) (st : String)
    (hmem : Ev.statusUpdate ids st ∈ (main_run selected args uploadOk).2) :
    st = "archived" ∧ args.dryRun = false ∧ uploadOk = true ∧
    ∃ pre, (main_run selected args uploadOk).2 =
        pre ++ [Ev.statusUpdate ids st] ∧ Ev.uploadDone ∈ pre := by
  obtain ⟨dr, ft, sk⟩ := args
  by_cases h0 : (get_selected_news selected 3).length = 0
  · simp [main_run, h0] at hmem
  by_cases h3 : (get_selected_news selected 3).length < 3
  · simp [main_run, h0, h3] at hmem
  cases dr
  · cases uploadOk
    · simp [main_run, h0, h3, generate_and_upload_video] at hmem
    · cases sk
      · simp only [main_run, h0, h3, generate_and_upload_video] at hmem ⊢
        simp at hmem
        obtain ⟨hid, hst⟩ := hmem
        subst hid
        subst hst
        refine ⟨by trivial, by trivial, by trivial,
          ⟨[Ev.scriptGen, Ev.audioGen, Ev.mixAudio, Ev.videoGen,
            Ev.thumbnailGen, Ev.uploadAttempt, Ev.uploadDone], by simp, by simp⟩⟩
      · simp [main_run, h0, h3, generate_and_upload_video] at hmem
  · simp [main_run, h0, h3, generate_and_upload_video] at hmem

/-- C2 witness: in a successful non-dry run over three selected items the
status update is in the trace, and the theorem places it after the completed
upload. -/
theorem C2_status_update_after_publish_witness :
    ∃ pre, (main_run ["a", "b", "c"]
        { dryRun := false, useFallbackTts := false, skipStatusUpdate := false }
        true).2 = pre ++ [Ev.statusUpdate ["a", "b", "c"] "archived"] ∧
      Ev.uploadDone ∈ pre :=
  (C2_status_update_after_publish ["a", "b", "c"]
    { dryRun := false, useFallbackTts := false, skipStatusUpdate := false }
    true ["a", "b", "c"] "archived" (by decide)).2.2.2

/-- C8 counterexample: the claim says a payload whose declared MIME encoding
is not in the recognized mapping is decoded with the wav default.  The MIME
type the Gemini backend actually declares for PCM, `audio/L16` followed by
parameters, is not a key of the mapping, yet the decode branch treats it as
headerless 16-bit PCM (the `startswith` test), not as a wav container. -/
theorem C8_l16_parameters_not_wav :
    GeminiAudioGenerator.mime_to_format.lookup "audio/L16;rate=24000" = none ∧
    GeminiAudioGenerator.decode_strategy_for "audio/L16;rate=24000" =
      GeminiAudioGenerator.DecodeStrategy.rawPCM 2 24000 1 ∧
    GeminiAudioGenerator.decode_strategy_for "audio/L16;rate=24000" ≠
      GeminiAudioGenerator.DecodeStrategy.container "wav" :=
  ⟨by decide, by decide, by decide⟩

/-- C8 (amended): a payload whose declared MIME type is not in the
recognized mapping is decoded as the wav default unless it starts with
`audio/L16`, in which case it is decoded as headerless 16-bit PCM at 24 kHz
mono; a payload that is empty or shorter than 10 bytes is skipped with a
warning and the assembly continues with the remaining payloads instead of
aborting. -/
theorem C8_payload_handling (m m2 : String) (p : GeminiAudioGenerator.Payload)
    (dur : GeminiAudioGenerator.Payload → Nat)
    (ps1 ps2 : List GeminiAudioGenerator.Payload)
    (hm : GeminiAudioGenerator.mime_to_format.lookup m = none)
    (hl16 : strStartsWith m "audio/L16" = false)
    (h2 : strStartsWith m2 "audio/L16" = true)
    (hshort : p.data.length < 10) :
    GeminiAudioGenerator.decode_strategy_for m =
      GeminiAudioGenerator.DecodeStrategy.container "wav" ∧
    GeminiAudioGenerator.decode_strategy_for m2 =
      GeminiAudioGenerator.DecodeStrategy.rawPCM 2 24000 1 ∧
    GeminiAudioGenerator.assemble dur (ps1 ++ p :: ps2) =
      GeminiAudioGenerator.assemble dur (ps1 ++ ps2) := by
  refine ⟨?_, ?_, ?_⟩
  · simp [GeminiAudioGenerator.decode_strategy_for,
      GeminiAudioGenerator.get_format_from_mime, hm, hl16]
  · simp [GeminiAudioGenerator.decode_strategy_for, h2]
  · simp [GeminiAudioGenerator.assemble, List.foldl_append,
      GeminiAudioGenerator.assemble_step, hshort]

/-- C8 witness: `audio/midi` is unrecognized and not an L16 type, so it gets
the wav default; the parameterised L16 type is decoded as raw PCM; and an
empty payload between two valid ones is skipped while both neighbours are
still assembled. -/
theorem C8_payload_handling_witness :
    GeminiAudioGenerator.decode_strategy_for "audio/midi" =
      GeminiAudioGenerator.DecodeStrategy.container "wav" ∧
    GeminiAudioGenerator.decode_strategy_for "audio/L16;rate=24000" =
      GeminiAudioGenerator.DecodeStrategy.rawPCM 2 24000 1 ∧
    GeminiAudioGenerator.assemble (fun _ => 500)
        ([{ data := List.replicate 20 0, mime_type := "audio/wav" }] ++
          { data := [], mime_type := "audio/wav" } ::
            [{ data := List.replicate 12 1, mime_type := "audio/mp3" }]) =
      GeminiAudioGenerator.assemble (fun _ => 500)
        ([{ data := List.replicate 20 0, mime_type := "audio/wav" }] ++
          [{ data := List.replicate 12 1, mime_type := "audio/mp3" }]) :=
  C8_payload_handling "audio/midi" "audio/L16;rate=24000"
    { data := [], mime_type := "audio/wav" } (fun _ => 500)
    [{ data := List.replicate 20 0, mime_type := "audio/wav" }]
    [{ data := List.replicate 12 1, mime_type := "audio/mp3" }]
    (by decide) (by decide) (by decide) (by decide)

end NewsCast
